import Mathlib

/-!
Verification development for the Prophet-based forecasting engine of the
bi-predictive-analytics-platform repository (file prophet-model.py, class
ProphetForecastingModel).

The engine is embedded shallowly:

* float64 values are modelled as rationals (ℚ); a missing value (NaN) is
  modelled as `none : Option ℚ`;
* timestamps are modelled as integers (days); a raw timestamp that
  pandas.to_datetime cannot parse is modelled as `none : Option ℤ`;
* the Prophet library itself (the numerical optimizer, the Monte-Carlo
  uncertainty sampling, and the diagnostics cross_validation routine) is not
  part of the repository; it is treated, as the spec directs, as a black-box
  collaborator: `fitModel`, `predictModel` and `crossValidate` take the
  black-box pieces as explicit function parameters, and concrete instances
  used in theorems are modelled from the spec and the Prophet contract and
  documented as such;
* Python exceptions are modelled as `Except PyError`; a method that mutates
  `self` and can raise returns the mutated state next to the `Except`, since
  a Python object keeps all mutations performed before an exception was
  raised.
-/

/-- The result of a numpy / pandas floating-point division: a finite value,
a signed infinity (division of a nonzero value by zero), or NaN (0/0).
numpy emits a warning in the zero-denominator cases but never raises. -/
inductive FVal where
  | fin (q : ℚ)
  | inf
  | neginf
  | nan
deriving DecidableEq

/-- numpy elementwise division semantics on float values (no exception ever):
`a / 0` is `+inf` for `a > 0`, `-inf` for `a < 0`, and NaN for `a = 0`. -/
def npDiv (a b : ℚ) : FVal :=
  if b = 0 then
    if 0 < a then FVal.inf else if a < 0 then FVal.neginf else FVal.nan
  else FVal.fin (a / b)

/-- Exception kinds. `modelTraining` and `prediction` are the repository's
own classes ModelTrainingException and PredictionException
(src/utils/exceptions.py); `valueError` and `genericError` are Python's
built-in ValueError and Exception, both raised by save_model;
`dataValidation`, `configuration` and `persistence` are the kinds named by
the spec (§7) so that spec claims about them can be stated — no code in the
repository raises them. -/
inductive ErrKind where
  | modelTraining
  | prediction
  | valueError
  | genericError
  | dataValidation
  | configuration
  | persistence
deriving DecidableEq

/-- A raised Python exception: its kind and its message. -/
structure PyError where
  kind : ErrKind
  msg : String
deriving DecidableEq

/-- numpy dtypes a pandas column can carry in this pipeline. The first five
are numeric; `int16` is included because the membership test on line 118 of
prophet-model.py checks only float64, int64, float32 and int32. -/
inductive Dtype where
  | float64
  | float32
  | int64
  | int32
  | int16
  | boolType
  | objectType
  | datetime64
deriving DecidableEq

/-- One input record: the raw timestamp cell (`none` when
pandas.to_datetime cannot parse it, otherwise the parsed time in days) and
the target-value cell (`none` for NaN). -/
structure RawRow where
  ds : Option Int
  y : Option ℚ
deriving DecidableEq

/-- The caller's dataframe after the column renaming of prepare_data
(lines 73-76): the ds/y cells row by row, plus the schema (name and numeric
dtype) of every other column. Regressor cell values pass through
preparation untouched and are consumed only by the black-box solver, so
only their schema is tracked. -/
structure RawFrame where
  rows : List RawRow
  extraCols : List (String × Dtype)
deriving DecidableEq

/-- A record of the prepared series: parsed timestamp and value cell. -/
structure DataRow where
  ds : Int
  y : Option ℚ
deriving DecidableEq

/-- The prepared dataframe returned by prepare_data. -/
structure PreparedFrame where
  rows : List DataRow
  extraCols : List (String × Dtype)
deriving DecidableEq

/-- pandas.to_datetime over the ds column (line 79): succeeds only if every
timestamp parses, otherwise the whole call raises. -/
def parseRows : List RawRow → Option (List DataRow)
  | [] => some []
  | r :: t =>
    match r.ds with
    | none => none
    | some d => (parseRows t).map (fun pt => { ds := d, y := r.y } :: pt)

/-- data.sort_values of line 82: stable sort of the rows by timestamp. -/
def sortByDs (l : List DataRow) : List DataRow :=
  l.insertionSort (fun a b => a.ds ≤ b.ds)

/-- Forward fill with a carried last-seen value (pandas fillna
method=ffill). -/
def ffillAux (carry : Option ℚ) : List (Option ℚ) → List (Option ℚ)
  | [] => []
  | none :: t => carry :: ffillAux carry t
  | some v :: t => some v :: ffillAux (some v) t

/-- pandas fillna(method=ffill) on a value column. -/
def ffill (l : List (Option ℚ)) : List (Option ℚ) :=
  ffillAux none l

/-- pandas fillna(method=bfill) on a value column: forward fill read from
the right. -/
def bfill (l : List (Option ℚ)) : List (Option ℚ) :=
  (ffillAux none l.reverse).reverse

/-- The non-missing entries of a value column, in order (pandas numeric
reductions skip NaN). -/
def dropNone (l : List (Option ℚ)) : List ℚ :=
  l.filterMap id

/-- Fractional part of a rational, via the executable Rat.floor. -/
def qfrac (q : ℚ) : ℚ :=
  q - (Rat.floor q : ℚ)

/-- Linear interpolation of a sorted sample list at fractional index `h`,
exactly as numpy/pandas quantile interpolation=linear does: with
`i = floor h`, the value is `s[i] + (h - i) * (s[i+1] - s[i])`; out-of-range
reads fall back so that `h = length - 1` yields the last element. -/
def interpSorted (s : List ℚ) (h : ℚ) : ℚ :=
  let i : ℕ := (Rat.floor h).toNat
  let a := s.getD i 0
  let b := s.getD (i + 1) a
  a + qfrac h * (b - a)

/-- pandas Series.quantile(q) with linear interpolation: drop nothing (the
argument list is already NaN-free), sort, interpolate at `q * (n - 1)`;
`none` on an empty list (pandas returns NaN there). -/
def quantileLinear (xs : List ℚ) (q : ℚ) : Option ℚ :=
  match xs.insertionSort (· ≤ ·) with
  | [] => none
  | s => some (interpSorted s (q * ((s.length : ℚ) - 1)))

/-- Lines 88-92: Q1, Q3 over the non-missing values of the filled column
and the clip interval [Q1 - 1.5 IQR, Q3 + 1.5 IQR]. When the column has no
non-missing value both quantiles are NaN and pandas clip with NaN bounds is
a no-op, modelled by `none`. -/
def clipBounds (ys : List (Option ℚ)) : Option (ℚ × ℚ) :=
  match quantileLinear (dropNone ys) (1 / 4), quantileLinear (dropNone ys) (3 / 4) with
  | some q1, some q3 => some (q1 - 3 / 2 * (q3 - q1), q3 + 3 / 2 * (q3 - q1))
  | _, _ => none

/-- pandas Series.clip(lower, upper) on one cell: NaN cells and NaN bounds
are left untouched; otherwise the lower bound is applied first, then the
upper (line 95). -/
def clipOpt (bds : Option (ℚ × ℚ)) (v : Option ℚ) : Option ℚ :=
  match v with
  | none => none
  | some x =>
    match bds with
    | none => some x
    | some (lo, hi) => some (min (max x lo) hi)

/-- The missing-value-filled value column of the sorted series
(lines 82-85). -/
def filledColumn (rows : List DataRow) : List (Option ℚ) :=
  bfill (ffill ((sortByDs rows).map (fun r => r.y)))

/-- ProphetForecastingModel.prepare_data (lines 56-101): parse timestamps,
sort ascending, forward- then back-fill the value column, and cap outliers
to [Q1 - 1.5 IQR, Q3 + 1.5 IQR]. Any exception inside the body is wrapped
in ModelTrainingException (line 101); the only raising step of the embedded
pipeline is timestamp parsing. -/
def prepare_data (df : RawFrame) : Except PyError PreparedFrame :=
  match parseRows df.rows with
  | none =>
    .error { kind := ErrKind.modelTraining,
             msg := "Data preparation failed: Unknown datetime string format" }
  | some rows =>
    let sorted := sortByDs rows
    let ys := bfill (ffill (sorted.map (fun r => r.y)))
    let bds := clipBounds ys
    let newYs := ys.map (clipOpt bds)
    .ok { rows := (sorted.zip newYs).map (fun rz => { ds := rz.1.ds, y := rz.2 }),
          extraCols := df.extraCols }

/-- The clip interval prepare_data uses for a raw frame, recomputed from
the raw input in the words of the spec (§4.1): Q1 and Q3 over the
missing-value-filled value column, bounds Q1 - 1.5 IQR and Q3 + 1.5 IQR. -/
def prepBoundsOfRaw (df : RawFrame) : Option (ℚ × ℚ) :=
  (parseRows df.rows).bind (fun rows => clipBounds (filledColumn rows))

/-- The learned parameters of a fitted Prophet model, abstracted: the
evaluation of the fitted additive model at a timestamp given the regressor
values merged onto that grid row. The spec (§1) treats the optimizer as a
black-box numerical solver, so nothing further about the parameters is
assumed. -/
structure FittedParams where
  point : Int → List (String × Option ℚ) → ℚ

/-- The Prophet object held in self.model: constructed unfitted on
line 172 with the configuration of lines 172-192, and mutated in place to
`fitted = some p` by model.fit on line 195. `histDates` is the training
grid Prophet records at fit time (sorted, since the prepared data is). -/
structure ProphetObj where
  fitted : Option FittedParams
  histDates : List Int
  seasonalities : List (String × ℚ × ℕ)
  regressors : List String
  countryHolidays : Option String
  intervalWidth : ℚ
  uncertaintySamples : ℕ

/-- The mutable attribute state of a ProphetForecastingModel instance
(lines 29-54). -/
structure ModelState where
  name : String
  seasonalityMode : String
  changepointPriorScale : ℚ
  seasonalityPriorScale : ℚ
  holidaysPriorScale : ℚ
  mcmcSamples : ℕ
  intervalWidth : ℚ
  uncertaintySamples : ℕ
  model : Option ProphetObj
  featureColumns : List String
  targetColumn : String
  trainingMetrics : List (String × ℚ)
  metadata : List (String × String)

/-- A freshly constructed instance with the constructor defaults of
lines 29-54 (metadata starts empty in the BaseModel parent, which is not
part of the repository sources). -/
def initialState (name : String) : ModelState :=
  { name := name
    seasonalityMode := "multiplicative"
    changepointPriorScale := 1 / 20
    seasonalityPriorScale := 10
    holidaysPriorScale := 10
    mcmcSamples := 0
    intervalWidth := 19 / 20
    uncertaintySamples := 1000
    model := none
    featureColumns := []
    targetColumn := ""
    trainingMetrics := []
    metadata := [] }

/-- The seasonal components enabled by the Prophet constructor call of
lines 172-183: weekly (period 7 days, Fourier order 3) and yearly
(period 365.25 days, Fourier order 10) are Prophet's defaults, daily is
disabled. -/
def prophetBaseSeasonalities : List (String × ℚ × ℕ) :=
  [("weekly", 7, 3), ("yearly", 1461 / 4, 10)]

/-- add_custom_seasonalities (lines 125-150): always appends a quarterly
component (period 365.25/4 days, Fourier order 5) and a monthly component
(period 30.5 days, Fourier order 3). -/
def add_custom_seasonalities (seas : List (String × ℚ × ℕ)) : List (String × ℚ × ℕ) :=
  seas ++ [("quarterly", 1461 / 16, 5), ("monthly", 61 / 2, 3)]

/-- The period, in days, of the shortest seasonal component enabled after
fitting: weekly, at 7 days. -/
def shortestSeasonalPeriod : ℚ :=
  ((add_custom_seasonalities prophetBaseSeasonalities).map (fun s => s.2.1)).foldr min 1000000

/-- The dtype membership test of line 118:
`data[col].dtype in [np.float64, np.int64, np.float32, np.int32]`. -/
def isNumericListed (d : Dtype) : Bool :=
  match d with
  | Dtype.float64 => true
  | Dtype.int64 => true
  | Dtype.float32 => true
  | Dtype.int32 => true
  | _ => false

/-- Modelled from the spec (§4.2): a numeric dtype in the sense of the
spec's regressor auto-discovery sentence, i.e. any integer or floating
dtype. Used only to compare the spec's wording with the source's
`isNumericListed` test. -/
def numericDtypeSpec (d : Dtype) : Bool :=
  match d with
  | Dtype.float64 => true
  | Dtype.float32 => true
  | Dtype.int64 => true
  | Dtype.int32 => true
  | Dtype.int16 => true
  | _ => false

/-- add_regressors (lines 103-123): the names of the columns other than
ds/y whose dtype passes the line-118 membership test, in column order.
These are registered on the Prophet model and appended to
self.feature_columns; every other column is skipped without an error. -/
def add_regressors (cols : List (String × Dtype)) : List String :=
  ((cols.filter (fun c => c.1 ≠ "ds" ∧ c.1 ≠ "y")).filter
    (fun c => isNumericListed c.2)).map (fun c => c.1)

/-- Python dict.update on an association list: existing keys are
overwritten, new keys appended. -/
def dictUpdate (old upd : List (String × String)) : List (String × String) :=
  old.filter (fun kv => (upd.lookup kv.1).isNone) ++ upd

/-- The metadata entries written by fit (lines 201-212), flattened to
strings. -/
def fitMetadata (st : ModelState) (trainingSamples : ℕ) (now : Int) : List (String × String) :=
  [("training_samples", toString trainingSamples),
   ("feature_columns", String.intercalate "," st.featureColumns),
   ("target_column", st.targetColumn),
   ("training_date", toString now),
   ("model_params", st.seasonalityMode)]

/-- ProphetForecastingModel.fit (lines 152-218), with the black-box pieces
as parameters: `coreFit` is the Prophet optimizer invoked by
self.model.fit(prepared_data) on line 195 and `calcM` is the in-sample
metrics pass of _calculate_training_metrics, returning `none` when that
pass raises internally (the except branch of lines 294-295, which only logs
a warning and leaves self.training_metrics untouched). The returned pair is
the instance state after the call (Python keeps every attribute mutation
performed before an exception) together with the outcome; every raised
exception is wrapped in ModelTrainingException by line 218. -/
def fitModel
    (coreFit : List DataRow → List (String × Dtype) → Except String FittedParams)
    (calcM : FittedParams → List DataRow → Option (List (String × ℚ)))
    (st : ModelState) (df : RawFrame) (targetCol : String) (now : Int) :
    ModelState × Except PyError Unit :=
  match prepare_data df with
  | .error e =>
    (st, .error { kind := ErrKind.modelTraining,
                  msg := "Prophet model training failed: " ++ e.msg })
  | .ok pr =>
    let st1 := { st with targetColumn := targetCol }
    let added := add_regressors pr.extraCols
    let obj0 : ProphetObj :=
      { fitted := none
        histDates := []
        seasonalities := add_custom_seasonalities prophetBaseSeasonalities
        regressors := added
        countryHolidays := some "US"
        intervalWidth := st.intervalWidth
        uncertaintySamples := st.uncertaintySamples }
    let st2 := { st1 with model := some obj0,
                          featureColumns := st1.featureColumns ++ added }
    match coreFit pr.rows pr.extraCols with
    | .error m =>
      (st2, .error { kind := ErrKind.modelTraining,
                     msg := "Prophet model training failed: " ++ m })
    | .ok p =>
      let obj1 := { obj0 with fitted := some p,
                              histDates := pr.rows.map (fun r => r.ds) }
      let st3 := { st2 with model := some obj1 }
      let st4 :=
        match calcM p pr.rows with
        | some ms => { st3 with trainingMetrics := ms }
        | none => st3
      let st5 := { st4 with
                   metadata := dictUpdate st4.metadata (fitMetadata st4 pr.rows.length now) }
      (st5, .ok ())

/-- Modelled from the spec: the black-box Prophet optimizer (§1 treats it
as a numerical solver with a defined input/output contract; it is supplied
by the external prophet dependency, not by the repository). Its only hard
input requirement is Prophet's documented one — at least two non-NaN rows;
it imposes no seasonal-cycle minimum. -/
def prophetCoreFit : List DataRow → List (String × Dtype) → Except String FittedParams :=
  fun rows _ =>
    if (rows.filter (fun r => r.y.isSome)).length < 2 then
      .error "Dataframe has less than 2 non-NaN rows."
    else
      .ok { point := fun _ _ => 0 }

/-- One output record of predict (lines 259-266): the Prophet forecast
columns plus the additional columns added on lines 263-266. -/
structure ForecastRow where
  ds : Int
  yhat : ℚ
  yhat_lower : ℚ
  yhat_upper : ℚ
  prediction_date : Int
  model_name : String
  confidence_width : ℚ
  relative_uncertainty : FVal
deriving DecidableEq

/-- make_future_dataframe (line 244): `periods` new timestamps after the
last training timestamp at spacing `step`, prefixed with the (sorted)
training grid when include_history is true. -/
def makeGrid (histDates : List Int) (periods : ℕ) (step : Int)
    (includeHistory : Bool) : List Int :=
  let last := histDates.getLast?.getD 0
  let fut := (List.range periods).map (fun i => last + ((i : Int) + 1) * step)
  (if includeHistory then histDates else []) ++ fut

/-- Lines 247-257: for each registered feature column present in the
supplied future_regressors frame, left-join its values onto the grid by
timestamp and forward-fill the gaps. The frame is modelled as its column
list plus a timestamp-and-column lookup. Columns the frame lacks stay
absent (the spec flags the engine default for them as unspecified source
behavior, §9). -/
def mergeRegressors (featureCols : List String)
    (fr : Option (List String × (Int → String → Option ℚ)))
    (grid : List Int) : List (String × List (Option ℚ)) :=
  match fr with
  | none => []
  | some (cols, look) =>
    if featureCols.length > 0 then
      (featureCols.filter (fun c => cols.contains c)).map
        (fun c => (c, ffill (grid.map (fun t => look t c))))
    else []

/-- One forecast row at grid index `i`, timestamp `t`. Modelled from the
spec for the Prophet-internal part (§4.4): yhat is the deterministic
evaluation of the fitted model, and the interval bounds are the
percentiles, at (1 - width)/2 and (1 + width)/2, of `uncertaintySamples`
sampled trajectories drawn from the per-call random stream `noise`
(sample j at grid index i deviates from yhat by `noise i j`). The derived
columns follow lines 263-266 of the source: prediction_date is the
wall-clock instant of the call, confidence_width = yhat_upper - yhat_lower,
relative_uncertainty = confidence_width / |yhat| under numpy division. -/
def mkForecastRow (name : String) (now : Int) (w : ℚ) (nsamples : ℕ)
    (p : FittedParams) (noise : ℕ → ℕ → ℚ)
    (regCols : List (String × List (Option ℚ))) (i : ℕ) (t : Int) : ForecastRow :=
  let regRow := regCols.map (fun c => (c.1, c.2.getD i none))
  let yh := p.point t regRow
  let samples := (List.range nsamples).map (fun j => yh + noise i j)
  let lo := (quantileLinear samples ((1 - w) / 2)).getD yh
  let hi := (quantileLinear samples ((1 + w) / 2)).getD yh
  { ds := t
    yhat := yh
    yhat_lower := lo
    yhat_upper := hi
    prediction_date := now
    model_name := name
    confidence_width := hi - lo
    relative_uncertainty := npDiv (hi - lo) |yh| }

/-- Builds the forecast rows over a grid, threading the absolute grid
index. -/
def buildRows (f : ℕ → Int → ForecastRow) : ℕ → List Int → List ForecastRow
  | _, [] => []
  | i, t :: ts => f i t :: buildRows f (i + 1) ts

/-- ProphetForecastingModel.predict (lines 220-272). `noise` is the
fixed random stream the uncertainty sampling draws from during this call
and `now` the wall-clock instant read by datetime.now() on line 263.
An instance whose model attribute is still None raises
PredictionException("Model has not been trained yet") on line 240; an
instance holding a constructed but unfitted Prophet object (the state
left behind by a fit that failed inside the optimizer) raises inside
make_future_dataframe, which line 272 wraps into a PredictionException. -/
def predictModel (noise : ℕ → ℕ → ℚ) (now : Int) (st : ModelState)
    (periods : ℕ) (freqStep : Int) (includeHistory : Bool)
    (futureRegressors : Option (List String × (Int → String → Option ℚ))) :
    Except PyError (List ForecastRow) :=
  match st.model with
  | none => .error { kind := ErrKind.prediction, msg := "Model has not been trained yet" }
  | some obj =>
    match obj.fitted with
    | none =>
      .error { kind := ErrKind.prediction,
               msg := "Prediction failed: Model has not been fit" }
    | some p =>
      let grid := makeGrid obj.histDates periods freqStep includeHistory
      let regCols := mergeRegressors st.featureColumns futureRegressors grid
      .ok (buildRows
        (mkForecastRow st.name now obj.intervalWidth obj.uncertaintySamples p noise regCols)
        0 grid)

/-- A forecast row with its generation timestamp blanked, used to compare
the outputs of two predict calls made at different wall-clock instants. -/
def withoutPredictionDate (r : ForecastRow) : ForecastRow :=
  { r with prediction_date := 0 }

/-- The bundle save_model serializes in its single joblib.dump call
(lines 376-384). -/
structure SavedModelData where
  model : Option ProphetObj
  feature_columns : List String
  target_column : String
  training_metrics : List (String × ℚ)
  metadata : List (String × String)

/-- ProphetForecastingModel.save_model (lines 370-388): raises the builtin
ValueError("No model to save") when the model attribute is None, otherwise
serializes the five-field bundle in one joblib.dump call, wrapping a dump
failure into a builtin Exception (line 388). `dump` is the I/O black box. -/
def save_model (dump : SavedModelData → Except String Unit) (st : ModelState) :
    Except PyError Unit :=
  match st.model with
  | none => .error { kind := ErrKind.valueError, msg := "No model to save" }
  | some _ =>
    match dump { model := st.model
                 feature_columns := st.featureColumns
                 target_column := st.targetColumn
                 training_metrics := st.trainingMetrics
                 metadata := st.metadata } with
    | .ok _ => .ok ()
    | .error m =>
      .error { kind := ErrKind.genericError, msg := "Failed to save model: " ++ m }

/-- ProphetForecastingModel.cross_validate (lines 297-342). The guard of
lines 318-319 fires only when the model attribute is None; everything
inside the try block — data preparation, the prophet.diagnostics
cross_validation call (black box `coreCv`, which raises on a Prophet object
that was never fit, modelled by the unfitted branch) and performance_metrics
(black box `perf`) — is wrapped into ModelTrainingException on line 342. -/
def crossValidate
    (coreCv : FittedParams → List DataRow → String → String → String →
      Except String (List (Int × ℚ)))
    (perf : List (Int × ℚ) → List (String × ℚ))
    (st : ModelState) (df : RawFrame) (horizon initial period : String) :
    Except PyError (List (Int × ℚ) × List (String × ℚ)) :=
  match st.model with
  | none => .error { kind := ErrKind.prediction, msg := "Model has not been trained yet" }
  | some obj =>
    match prepare_data df with
    | .error e =>
      .error { kind := ErrKind.modelTraining, msg := "Cross-validation failed: " ++ e.msg }
    | .ok pr =>
      match obj.fitted with
      | none =>
        .error { kind := ErrKind.modelTraining,
                 msg := "Cross-validation failed: Model has not been fit" }
      | some p =>
        match coreCv p pr.rows horizon initial period with
        | .error m =>
          .error { kind := ErrKind.modelTraining, msg := "Cross-validation failed: " ++ m }
        | .ok res => .ok (res, perf res)

theorem parseRows_length : ∀ {l : List RawRow} {pl : List DataRow},
    parseRows l = some pl → pl.length = l.length := by
  intro l
  induction l with
  | nil => intro pl h; simp [parseRows] at h; simp [← h]
  | cons r t ih =>
    intro pl h
    simp only [parseRows] at h
    cases hds : r.ds with
    | none => rw [hds] at h; simp at h
    | some d =>
      rw [hds] at h
      cases hpt : parseRows t with
      | none => rw [hpt] at h; simp at h
      | some pt =>
        rw [hpt] at h
        simp only [Option.map_some', Option.some.injEq] at h
        rw [← h]
        simp [List.length_cons, ih hpt]

theorem parseRows_eq_none_iff : ∀ {l : List RawRow},
    parseRows l = none ↔ ∃ r ∈ l, r.ds = none := by
  intro l
  induction l with
  | nil => simp [parseRows]
  | cons r t ih =>
    simp only [parseRows]
    cases hds : r.ds with
    | none => simp [hds]
    | some d =>
      cases hpt : parseRows t with
      | none =>
        simp only [Option.map_none', true_iff]
        have := ih.mp hpt
        obtain ⟨r2, hr2, hds2⟩ := this
        exact ⟨r2, List.mem_cons_of_mem r hr2, hds2⟩
      | some pt =>
        simp only [Option.map_some']
        constructor
        · intro h; simp at h
        · rintro ⟨r2, hr2, hds2⟩
          rcases List.mem_cons.mp hr2 with h2 | h2
          · rw [h2] at hds2; rw [hds] at hds2; simp at hds2
          · have : parseRows t = none := ih.mpr ⟨r2, h2, hds2⟩
            rw [hpt] at this; simp at this

theorem ffillAux_length (c : Option ℚ) : ∀ l : List (Option ℚ),
    (ffillAux c l).length = l.length := by
  intro l
  induction l generalizing c with
  | nil => simp [ffillAux]
  | cons x t ih =>
    cases x with
    | none => simp [ffillAux, ih]
    | some v => simp [ffillAux, ih]

theorem ffill_length (l : List (Option ℚ)) : (ffill l).length = l.length :=
  ffillAux_length none l

theorem bfill_length (l : List (Option ℚ)) : (bfill l).length = l.length := by
  simp [bfill, ffillAux_length]

theorem ffillAux_all_isSome {c : Option ℚ} (hc : c.isSome) :
    ∀ l : List (Option ℚ), ∀ y ∈ ffillAux c l, y.isSome := by
  intro l
  induction l generalizing c with
  | nil => intro y hy; simp [ffillAux] at hy
  | cons x t ih =>
    intro y hy
    cases x with
    | none =>
      simp only [ffillAux, List.mem_cons] at hy
      rcases hy with hy | hy
      · rw [hy]; exact hc
      · exact ih hc y hy
    | some v =>
      simp only [ffillAux, List.mem_cons] at hy
      rcases hy with hy | hy
      · rw [hy]; simp
      · exact ih (by simp) y hy

theorem ffill_all_isSome_of_head {x : Option ℚ} (hx : x.isSome)
    (t : List (Option ℚ)) : ∀ y ∈ ffillAux none (x :: t), y.isSome := by
  intro y hy
  cases x with
  | none => simp at hx
  | some v =>
    simp only [ffillAux, List.mem_cons] at hy
    rcases hy with hy | hy
    · rw [hy]; simp
    · exact ffillAux_all_isSome (by simp) t y hy

theorem ffillAux_getLast_isSome :
    ∀ (l : List (Option ℚ)) (c : Option ℚ), l ≠ [] →
    ((∃ x ∈ l, x.isSome) ∨ c.isSome) →
    ∃ v : ℚ, (ffillAux c l).getLast? = some (some v) := by
  intro l
  induction l with
  | nil => intro c h; simp at h
  | cons x t ih =>
    intro c _ hex
    by_cases htne : t = []
    · subst htne
      cases x with
      | none =>
        have hc : c.isSome := by
          rcases hex with ⟨z, hz, hzs⟩ | hc
          · simp at hz; rw [hz] at hzs; simp at hzs
          · exact hc
        obtain ⟨v, hv⟩ := Option.isSome_iff_exists.mp hc
        exact ⟨v, by simp [ffillAux, hv]⟩
      | some v => exact ⟨v, by simp [ffillAux]⟩
    · cases x with
      | none =>
        have hex2 : (∃ w ∈ t, w.isSome) ∨ c.isSome := by
          rcases hex with ⟨w, hw, hws⟩ | hc
          · rcases List.mem_cons.mp hw with hw2 | hw2
            · rw [hw2] at hws; simp at hws
            · exact Or.inl ⟨w, hw2, hws⟩
          · exact Or.inr hc
        obtain ⟨v, hv⟩ := ih c htne hex2
        obtain ⟨ys, hys⟩ := List.getLast?_eq_some_iff.mp hv
        refine ⟨v, ?_⟩
        simp only [ffillAux]
        rw [hys, ← List.cons_append, List.getLast?_concat]
      | some w =>
        obtain ⟨v, hv⟩ := ih (some w) htne (Or.inr (by simp))
        obtain ⟨ys, hys⟩ := List.getLast?_eq_some_iff.mp hv
        refine ⟨v, ?_⟩
        simp only [ffillAux]
        rw [hys, ← List.cons_append, List.getLast?_concat]

theorem exists_isSome_of_ffillAux :
    ∀ (l : List (Option ℚ)) (c : Option ℚ),
    (∃ y ∈ ffillAux c l, y.isSome) → c.isSome ∨ ∃ x ∈ l, x.isSome := by
  intro l
  induction l with
  | nil => intro c h; simp [ffillAux] at h
  | cons x t ih =>
    intro c ⟨y, hy, hys⟩
    cases x with
    | none =>
      simp only [ffillAux, List.mem_cons] at hy
      rcases hy with hy | hy
      · rw [hy] at hys; exact Or.inl hys
      · rcases ih c ⟨y, hy, hys⟩ with hc | ⟨z, hz, hzs⟩
        · exact Or.inl hc
        · exact Or.inr ⟨z, List.mem_cons_of_mem _ hz, hzs⟩
    | some v =>
      exact Or.inr ⟨some v, List.mem_cons_self _ _, by simp⟩

theorem filled_all_isSome {l : List (Option ℚ)} (h : ∃ x ∈ l, x.isSome) :
    ∀ y ∈ bfill (ffill l), y.isSome := by
  intro y hy
  have hlne : l ≠ [] := by
    rcases h with ⟨x, hx, _⟩
    intro hcon; rw [hcon] at hx; simp at hx
  obtain ⟨v, hv⟩ := ffillAux_getLast_isSome l none hlne (Or.inl h)
  have hhead : (ffillAux none l).reverse.head? = some (some v) := by
    rw [List.head?_reverse]; exact hv
  cases hrev : (ffillAux none l).reverse with
  | nil => rw [hrev] at hhead; simp at hhead
  | cons z zs =>
    rw [hrev] at hhead
    simp only [List.head?_cons, Option.some.injEq] at hhead
    have hy2 : y ∈ ffillAux none ((ffillAux none l).reverse) := by
      simp only [bfill, ffill] at hy
      exact List.mem_reverse.mp hy
    rw [hrev] at hy2
    exact ffill_all_isSome_of_head (by rw [hhead]; simp) zs y hy2

theorem exists_isSome_of_filled {l : List (Option ℚ)}
    (h : ∃ y ∈ bfill (ffill l), y.isSome) : ∃ x ∈ l, x.isSome := by
  rcases h with ⟨y, hy, hys⟩
  have hy2 : y ∈ ffillAux none ((ffillAux none l).reverse) := by
    simp only [bfill, ffill] at hy
    exact List.mem_reverse.mp hy
  rcases exists_isSome_of_ffillAux _ none ⟨y, hy2, hys⟩ with hc | ⟨z, hz, hzs⟩
  · simp at hc
  · rcases exists_isSome_of_ffillAux l none ⟨z, List.mem_reverse.mp hz, hzs⟩ with hc | hex
    · simp at hc
    · exact hex

theorem qfloor_le (q : ℚ) : (Rat.floor q : ℚ) ≤ q :=
  Rat.le_floor.mp le_rfl

theorem lt_qfloor_add_one (q : ℚ) : q < (Rat.floor q : ℚ) + 1 := by
  by_contra hcon
  push_neg at hcon
  have h2 : (Rat.floor q + 1 : ℤ) ≤ Rat.floor q := Rat.le_floor.mpr (by push_cast; linarith)
  omega

theorem qfloor_mono {a b : ℚ} (h : a ≤ b) : Rat.floor a ≤ Rat.floor b :=
  Rat.le_floor.mpr (le_trans (qfloor_le a) h)

theorem qfloor_nonneg {a : ℚ} (h : 0 ≤ a) : 0 ≤ Rat.floor a :=
  Rat.le_floor.mpr (by push_cast; linarith)

theorem qfloor_le_of_le {a : ℚ} {n : ℤ} (h : a ≤ n) : Rat.floor a ≤ n := by
  by_contra hcon
  push_neg at hcon
  have h2 : (Rat.floor a : ℚ) ≤ a := qfloor_le a
  have h3 : ((n + 1 : ℤ) : ℚ) ≤ ((Rat.floor a : ℤ) : ℚ) := by exact_mod_cast hcon
  push_cast at h3
  linarith

theorem sorted_getD_le_getD {s : List ℚ} (hs : s.Sorted (· ≤ ·)) {i j : ℕ}
    (hij : i ≤ j) (hj : j < s.length) (d d' : ℚ) : s.getD i d ≤ s.getD j d' := by
  have hi : i < s.length := lt_of_le_of_lt hij hj
  rw [List.getD_eq_getElem?_getD, List.getElem?_eq_getElem hi, Option.getD_some,
      List.getD_eq_getElem?_getD, List.getElem?_eq_getElem hj, Option.getD_some]
  have := List.Sorted.rel_get_of_le hs
    (show (⟨i, hi⟩ : Fin s.length) ≤ ⟨j, hj⟩ from hij)
  simpa [List.get_eq_getElem] using this

theorem getD_succ_ge {s : List ℚ} (hs : s.Sorted (· ≤ ·)) {k : ℕ}
    (_hk : k < s.length) : s.getD k 0 ≤ s.getD (k + 1) (s.getD k 0) := by
  by_cases hk1 : k + 1 < s.length
  · exact sorted_getD_le_getD hs (Nat.le_succ k) hk1 0 _
  · have hout : s.length ≤ k + 1 := Nat.le_of_not_lt hk1
    rw [List.getD_eq_getElem?_getD (s) (k + 1), List.getElem?_eq_none hout,
        Option.getD_none]

theorem interp_arith {a b c d iq jq h h' : ℚ}
    (hba : a ≤ b) (hdc : c ≤ d)
    (hi2 : h < iq + 1) (hj1 : jq ≤ h') (hle : h ≤ h')
    (hcase : (iq = jq ∧ a = c ∧ b = d) ∨ b ≤ c) :
    a + (h - iq) * (b - a) ≤ c + (h' - jq) * (d - c) := by
  rcases hcase with ⟨h1, h2, h3⟩ | hbc
  · subst h1; subst h2; subst h3
    nlinarith [mul_nonneg (sub_nonneg.mpr hle) (sub_nonneg.mpr hba)]
  · have s1 : a + (h - iq) * (b - a) ≤ b := by
      nlinarith [mul_nonneg (by linarith : (0:ℚ) ≤ 1 - (h - iq)) (sub_nonneg.mpr hba)]
    have s2 : c ≤ c + (h' - jq) * (d - c) := by
      nlinarith [mul_nonneg (by linarith : (0:ℚ) ≤ h' - jq) (sub_nonneg.mpr hdc)]
    linarith

theorem interpSorted_mono {s : List ℚ} (hs : s.Sorted (· ≤ ·)) {h h' : ℚ}
    (h0 : 0 ≤ h) (hle : h ≤ h') (hub : h' ≤ (s.length : ℚ) - 1) :
    interpSorted s h ≤ interpSorted s h' := by
  have h0' : (0:ℚ) ≤ h' := le_trans h0 hle
  have hn1 : (1:ℚ) ≤ (s.length : ℚ) := by linarith
  have hnpos : 0 < s.length := by exact_mod_cast lt_of_lt_of_le one_pos hn1
  have hfl0 : 0 ≤ Rat.floor h := qfloor_nonneg h0
  have hfl0' : 0 ≤ Rat.floor h' := qfloor_nonneg h0'
  have hflle : Rat.floor h ≤ Rat.floor h' := qfloor_mono hle
  have hiq : (((Rat.floor h).toNat : ℕ) : ℚ) = ((Rat.floor h : ℤ) : ℚ) := by
    exact_mod_cast Int.toNat_of_nonneg hfl0
  have hjq : (((Rat.floor h').toNat : ℕ) : ℚ) = ((Rat.floor h' : ℤ) : ℚ) := by
    exact_mod_cast Int.toNat_of_nonneg hfl0'
  have hjle : Rat.floor h' ≤ (s.length : ℤ) - 1 := by
    apply qfloor_le_of_le
    push_cast
    linarith
  have hjlt : (Rat.floor h').toNat < s.length := by omega
  have hij : (Rat.floor h).toNat ≤ (Rat.floor h').toNat := by omega
  have hilt : (Rat.floor h).toNat < s.length := lt_of_le_of_lt hij hjlt
  have hi2 : h < ((Rat.floor h).toNat : ℚ) + 1 := by
    rw [hiq]; exact lt_qfloor_add_one h
  have hj1 : ((Rat.floor h').toNat : ℚ) ≤ h' := by
    rw [hjq]; exact qfloor_le h'
  simp only [interpSorted, qfrac]
  rw [← hiq, ← hjq]
  apply interp_arith (getD_succ_ge hs hilt) (getD_succ_ge hs hjlt) hi2 hj1 hle
  rcases eq_or_lt_of_le hij with heq | hlt
  · left
    refine ⟨by rw [heq], by rw [heq], by rw [heq]⟩
  · right
    exact sorted_getD_le_getD hs (Nat.succ_le_of_lt hlt) hjlt _ 0

theorem quantileLinear_eq_some {xs : List ℚ} (hne : xs ≠ []) (q : ℚ) :
    quantileLinear xs q =
      some (interpSorted (xs.insertionSort (· ≤ ·))
        (q * (((xs.insertionSort (· ≤ ·)).length : ℚ) - 1))) := by
  cases hsrt : xs.insertionSort (· ≤ ·) with
  | nil =>
    have hlen := (List.perm_insertionSort (· ≤ ·) xs).length_eq
    rw [hsrt] at hlen
    simp only [List.length_nil] at hlen
    exact absurd (List.length_eq_zero.mp hlen.symm) hne
  | cons a t =>
    simp [quantileLinear, hsrt]

theorem quantileLinear_mono {xs : List ℚ} (hne : xs ≠ []) {q q' : ℚ}
    (hq0 : 0 ≤ q) (hqq : q ≤ q') (hq1 : q' ≤ 1) :
    ∃ a b, quantileLinear xs q = some a ∧ quantileLinear xs q' = some b ∧ a ≤ b := by
  have hsorted := List.sorted_insertionSort (· ≤ ·) xs
  have hlen : (xs.insertionSort (· ≤ ·)).length = xs.length :=
    (List.perm_insertionSort _ xs).length_eq
  have hlpos : 0 < xs.length := List.length_pos.mpr hne
  have hn1 : (1:ℚ) ≤ ((xs.insertionSort (· ≤ ·)).length : ℚ) := by
    rw [hlen]; exact_mod_cast hlpos
  refine ⟨_, _, quantileLinear_eq_some hne q, quantileLinear_eq_some hne q', ?_⟩
  apply interpSorted_mono hsorted
  · exact mul_nonneg hq0 (by linarith)
  · exact mul_le_mul_of_nonneg_right hqq (by linarith)
  · calc q' * (((xs.insertionSort (· ≤ ·)).length : ℚ) - 1)
        ≤ 1 * (((xs.insertionSort (· ≤ ·)).length : ℚ) - 1) :=
          mul_le_mul_of_nonneg_right hq1 (by linarith)
    _ = ((xs.insertionSort (· ≤ ·)).length : ℚ) - 1 := one_mul _

theorem ne_nil_of_quantileLinear_eq_some {xs : List ℚ} {q a : ℚ}
    (h : quantileLinear xs q = some a) : xs ≠ [] := by
  intro hcon
  subst hcon
  simp [quantileLinear, List.insertionSort] at h

theorem exists_isSome_of_dropNone_ne_nil {l : List (Option ℚ)}
    (h : dropNone l ≠ []) : ∃ x ∈ l, x.isSome := by
  obtain ⟨a, ha⟩ := List.exists_mem_of_ne_nil _ h
  simp only [dropNone, List.mem_filterMap, id] at ha
  obtain ⟨x, hx, hxa⟩ := ha
  exact ⟨x, hx, by rw [hxa]; simp⟩

theorem clipBounds_le {ys : List (Option ℚ)} {lo hi : ℚ}
    (hb : clipBounds ys = some (lo, hi)) : lo ≤ hi := by
  simp only [clipBounds] at hb
  cases hq1 : quantileLinear (dropNone ys) (1 / 4) with
  | none => rw [hq1] at hb; simp at hb
  | some q1 =>
    cases hq3 : quantileLinear (dropNone ys) (3 / 4) with
    | none => rw [hq1, hq3] at hb; simp at hb
    | some q3 =>
      rw [hq1, hq3] at hb
      simp only [Option.some.injEq, Prod.mk.injEq] at hb
      obtain ⟨hlo, hhi⟩ := hb
      have hne : dropNone ys ≠ [] := ne_nil_of_quantileLinear_eq_some hq1
      obtain ⟨a, b, ha, hb2, hab⟩ :=
        quantileLinear_mono hne (by norm_num : (0:ℚ) ≤ 1 / 4)
          (by norm_num : (1:ℚ) / 4 ≤ 3 / 4) (by norm_num : (3:ℚ) / 4 ≤ 1)
      rw [hq1] at ha
      rw [hq3] at hb2
      simp only [Option.some.injEq] at ha hb2
      have hq13 : q1 ≤ q3 := by rw [ha, hb2]; exact hab
      rw [← hlo, ← hhi]
      linarith

theorem prepare_data_eq {df : RawFrame} {rows : List DataRow}
    (hp : parseRows df.rows = some rows) :
    prepare_data df = .ok
      { rows := ((sortByDs rows).zip
          ((filledColumn rows).map (clipOpt (clipBounds (filledColumn rows))))).map
          (fun rz => { ds := rz.1.ds, y := rz.2 }),
        extraCols := df.extraCols } := by
  simp only [prepare_data, hp, filledColumn]

theorem prepare_data_error_of_parse_none {df : RawFrame}
    (hp : parseRows df.rows = none) :
    prepare_data df = .error
      { kind := ErrKind.modelTraining,
        msg := "Data preparation failed: Unknown datetime string format" } := by
  simp only [prepare_data, hp]

/-- C3 (amended): prepare_data raises exactly when some timestamp is
unparseable, and what it raises is the repository's ModelTrainingException
(there is no separate DataValidationError anywhere in the code); an empty
or entirely-missing value series is not rejected — prepare_data returns it,
with the values still missing, instead of failing. -/
theorem C3_prepare_failure_characterization (df : RawFrame) :
    ((∃ e, prepare_data df = .error e) ↔ ∃ r ∈ df.rows, r.ds = none) ∧
    (∀ e, prepare_data df = .error e → e.kind = ErrKind.modelTraining) := by
  cases hp : parseRows df.rows with
  | none =>
    constructor
    · constructor
      · intro _; exact parseRows_eq_none_iff.mp hp
      · intro _; exact ⟨_, prepare_data_error_of_parse_none hp⟩
    · intro e he
      rw [prepare_data_error_of_parse_none hp] at he
      simp only [Except.error.injEq] at he
      rw [← he]
  | some rows =>
    constructor
    · constructor
      · rintro ⟨e, he⟩
        rw [prepare_data_eq hp] at he
        simp at he
      · intro hex
        have : parseRows df.rows = none := parseRows_eq_none_iff.mpr hex
        rw [hp] at this
        simp at this
    · intro e he
      rw [prepare_data_eq hp] at he
      simp at he

theorem clipBounds_some_dropNone_ne_nil {ys : List (Option ℚ)} {p : ℚ × ℚ}
    (hb : clipBounds ys = some p) : dropNone ys ≠ [] := by
  simp only [clipBounds] at hb
  cases hq1 : quantileLinear (dropNone ys) (1 / 4) with
  | none => rw [hq1] at hb; simp at hb
  | some q1 => exact ne_nil_of_quantileLinear_eq_some hq1

/-- C4: after prepare_data, every value of the prepared series lies within
[Q1 - 1.5 IQR, Q3 + 1.5 IQR], where Q1 and Q3 are the quartiles of the
missing-value-filled value column (prepBoundsOfRaw spells out exactly that
computation), and the record count equals the input record count — values
are capped, never removed. The interval hypothesis also expresses that the
filled column has at least one non-missing value; without one, pandas
quantile is NaN and the clip step is a no-op (see the C3 analysis). -/
theorem C4_outlier_capping (df : RawFrame) (out : PreparedFrame) (lo hi : ℚ)
    (hok : prepare_data df = .ok out)
    (hb : prepBoundsOfRaw df = some (lo, hi)) :
    out.rows.length = df.rows.length ∧
    ∀ r ∈ out.rows, ∃ v, r.y = some v ∧ lo ≤ v ∧ v ≤ hi := by
  cases hp : parseRows df.rows with
  | none =>
    simp only [prepBoundsOfRaw, hp, Option.none_bind] at hb
    exact Option.noConfusion hb
  | some rows =>
    have hbc : clipBounds (filledColumn rows) = some (lo, hi) := by
      simp only [prepBoundsOfRaw, hp, Option.some_bind] at hb
      exact hb
    have hout := prepare_data_eq hp
    rw [hok] at hout
    simp only [Except.ok.injEq] at hout
    have hlohi : lo ≤ hi := clipBounds_le hbc
    have hfillne : dropNone (filledColumn rows) ≠ [] :=
      clipBounds_some_dropNone_ne_nil hbc
    have hexfill : ∃ x ∈ filledColumn rows, x.isSome :=
      exists_isSome_of_dropNone_ne_nil hfillne
    have hexbase : ∃ x ∈ (sortByDs rows).map (fun r => r.y), x.isSome := by
      have := exists_isSome_of_filled (l := (sortByDs rows).map (fun r => r.y)) ?_
      · exact this
      · simpa [filledColumn] using hexfill
    have hall : ∀ y ∈ filledColumn rows, y.isSome := by
      intro y hy
      have := filled_all_isSome hexbase
      apply this
      simpa [filledColumn] using hy
    have hsortlen : (sortByDs rows).length = rows.length :=
      (List.perm_insertionSort _ rows).length_eq
    have hfilllen : (filledColumn rows).length = (sortByDs rows).length := by
      simp [filledColumn, bfill_length, ffill_length]
    constructor
    · rw [hout]
      simp only [List.length_map, List.length_zip, List.length_map]
      rw [hfilllen, hsortlen, min_self, parseRows_length hp]
    · intro r hr
      rw [hout] at hr
      obtain ⟨rz, hrz, hfr⟩ := List.mem_map.mp hr
      have hz2 : rz.2 ∈ (filledColumn rows).map (clipOpt (clipBounds (filledColumn rows))) :=
        (List.of_mem_zip hrz).2
      obtain ⟨yv, hyv, hcv⟩ := List.mem_map.mp hz2
      have hys : yv.isSome := hall yv hyv
      obtain ⟨x, hx⟩ := Option.isSome_iff_exists.mp hys
      refine ⟨min (max x lo) hi, ?_, ?_, ?_⟩
      · rw [← hfr]
        simp only
        rw [← hcv, hx, hbc]
        simp [clipOpt]
      · exact le_min (le_trans (le_max_right x lo) (le_refl _)) hlohi
      · exact min_le_right _ _

theorem buildRows_mem {f : ℕ → Int → ForecastRow} :
    ∀ {i : ℕ} {ts : List Int} {r : ForecastRow},
    r ∈ buildRows f i ts → ∃ k t, t ∈ ts ∧ r = f k t := by
  intro i ts
  induction ts generalizing i with
  | nil => intro r hr; simp [buildRows] at hr
  | cons t ts ih =>
    intro r hr
    simp only [buildRows, List.mem_cons] at hr
    rcases hr with hr | hr
    · exact ⟨i, t, List.mem_cons_self _ _, hr⟩
    · obtain ⟨k, t2, ht2, hr2⟩ := ih hr
      exact ⟨k, t2, List.mem_cons_of_mem _ ht2, hr2⟩

theorem buildRows_map_congr {f g : ℕ → Int → ForecastRow}
    (hfg : ∀ k t, withoutPredictionDate (f k t) = withoutPredictionDate (g k t)) :
    ∀ (i : ℕ) (ts : List Int),
    (buildRows f i ts).map withoutPredictionDate =
      (buildRows g i ts).map withoutPredictionDate := by
  intro i ts
  induction ts generalizing i with
  | nil => simp [buildRows]
  | cons t ts ih =>
    simp only [buildRows, List.map_cons]
    rw [hfg i t, ih (i + 1)]

/-- C2 (amended): predict is deterministic given the instance state, grid
parameters, the future-regressor frame and the random stream, except for
the prediction_date column, which is stamped with the wall-clock instant of
each call (line 263); two calls at different instants agree on every
forecast row once prediction_date is blanked, but the full ForecastRow
sequences are not bit-identical. -/
theorem C2_predict_deterministic_modulo_prediction_date
    (noise : ℕ → ℕ → ℚ) (st : ModelState) (periods : ℕ) (freqStep : Int)
    (includeHistory : Bool) (fr : Option (List String × (Int → String → Option ℚ)))
    (t1 t2 : Int) :
    (predictModel noise t1 st periods freqStep includeHistory fr).map
      (List.map withoutPredictionDate) =
    (predictModel noise t2 st periods freqStep includeHistory fr).map
      (List.map withoutPredictionDate) := by
  cases hm : st.model with
  | none => simp [predictModel, hm]
  | some obj =>
    cases hf : obj.fitted with
    | none => simp [predictModel, hm, hf]
    | some p =>
      simp only [predictModel, hm, hf, Except.map]
      congr 1
      apply buildRows_map_congr
      intro k t
      simp [mkForecastRow, withoutPredictionDate]

theorem quantile_getD_le {xs : List ℚ} {q q' : ℚ} (d : ℚ)
    (hq0 : 0 ≤ q) (hqq : q ≤ q') (hq1 : q' ≤ 1) :
    (quantileLinear xs q).getD d ≤ (quantileLinear xs q').getD d := by
  by_cases hne : xs = []
  · subst hne; simp [quantileLinear, List.insertionSort]
  · obtain ⟨a, b, ha, hb, hab⟩ := quantileLinear_mono hne hq0 hqq hq1
    rw [ha, hb]
    simpa using hab

theorem mkForecastRow_lower_le_upper {name : String} {now : Int} {w : ℚ}
    {nsamples : ℕ} {p : FittedParams} {noise : ℕ → ℕ → ℚ}
    {regCols : List (String × List (Option ℚ))} {i : ℕ} {t : Int}
    (hw0 : 0 ≤ w) (hw1 : w ≤ 1) :
    (mkForecastRow name now w nsamples p noise regCols i t).yhat_lower ≤
      (mkForecastRow name now w nsamples p noise regCols i t).yhat_upper := by
  simp only [mkForecastRow]
  exact quantile_getD_le _ (by linarith) (by linarith) (by linarith)

theorem mkForecastRow_width {name : String} {now : Int} {w : ℚ}
    {nsamples : ℕ} {p : FittedParams} {noise : ℕ → ℕ → ℚ}
    {regCols : List (String × List (Option ℚ))} {i : ℕ} {t : Int} :
    (mkForecastRow name now w nsamples p noise regCols i t).confidence_width =
      (mkForecastRow name now w nsamples p noise regCols i t).yhat_upper -
      (mkForecastRow name now w nsamples p noise regCols i t).yhat_lower := by
  simp [mkForecastRow]

theorem mkForecastRow_rel {name : String} {now : Int} {w : ℚ}
    {nsamples : ℕ} {p : FittedParams} {noise : ℕ → ℕ → ℚ}
    {regCols : List (String × List (Option ℚ))} {i : ℕ} {t : Int} :
    (mkForecastRow name now w nsamples p noise regCols i t).relative_uncertainty =
      npDiv (mkForecastRow name now w nsamples p noise regCols i t).confidence_width
        |(mkForecastRow name now w nsamples p noise regCols i t).yhat| := by
  simp [mkForecastRow]

/-- C5 (amended): for every ForecastRow predict produces,
yhat_lower ≤ yhat_upper and the derived confidence_width equals
yhat_upper - yhat_lower and is nonnegative, because the two interval bounds
are the percentiles of one sample set at ordered quantile levels. The
stronger claimed invariant yhat_lower ≤ yhat ≤ yhat_upper does not hold for
every random stream — yhat is computed independently of the sampled
trajectories (see the counterexample). -/
theorem C5_interval_ordering (noise : ℕ → ℕ → ℚ) (now : Int) (st : ModelState)
    (periods : ℕ) (freqStep : Int) (includeHistory : Bool)
    (fr : Option (List String × (Int → String → Option ℚ)))
    (obj : ProphetObj) (p : FittedParams) (rows : List ForecastRow)
    (hm : st.model = some obj) (hf : obj.fitted = some p)
    (hw0 : 0 ≤ obj.intervalWidth) (hw1 : obj.intervalWidth ≤ 1)
    (hok : predictModel noise now st periods freqStep includeHistory fr = .ok rows) :
    ∀ r ∈ rows, r.yhat_lower ≤ r.yhat_upper ∧
      r.confidence_width = r.yhat_upper - r.yhat_lower ∧
      0 ≤ r.confidence_width := by
  simp only [predictModel, hm, hf, Except.ok.injEq] at hok
  intro r hr
  rw [← hok] at hr
  obtain ⟨k, t, _, hrkt⟩ := buildRows_mem hr
  rw [hrkt]
  refine ⟨mkForecastRow_lower_le_upper hw0 hw1, mkForecastRow_width, ?_⟩
  rw [mkForecastRow_width]
  have := @mkForecastRow_lower_le_upper st.name now obj.intervalWidth
    obj.uncertaintySamples p noise
    (mergeRegressors st.featureColumns fr
      (makeGrid obj.histDates periods freqStep includeHistory)) k t hw0 hw1
  linarith

/-- C7: for every ForecastRow predict produces, relative_uncertainty equals
confidence_width / |yhat| under numpy division semantics — no exception is
raised for a zero denominator: when yhat = 0 the stored value is the +inf
produced by numpy for a positive width, or numpy's NaN sentinel for the 0/0
case; predict itself returns its row sequence normally. -/
theorem C7_relative_uncertainty_guarded (noise : ℕ → ℕ → ℚ) (now : Int)
    (st : ModelState) (periods : ℕ) (freqStep : Int) (includeHistory : Bool)
    (fr : Option (List String × (Int → String → Option ℚ)))
    (obj : ProphetObj) (p : FittedParams) (rows : List ForecastRow)
    (hm : st.model = some obj) (hf : obj.fitted = some p)
    (hok : predictModel noise now st periods freqStep includeHistory fr = .ok rows) :
    ∀ r ∈ rows,
      r.relative_uncertainty = npDiv r.confidence_width |r.yhat| ∧
      (r.yhat = 0 → (0 < r.confidence_width → r.relative_uncertainty = FVal.inf) ∧
        (r.confidence_width = 0 → r.relative_uncertainty = FVal.nan)) := by
  simp only [predictModel, hm, hf, Except.ok.injEq] at hok
  intro r hr
  rw [← hok] at hr
  obtain ⟨k, t, _, hrkt⟩ := buildRows_mem hr
  rw [hrkt]
  refine ⟨mkForecastRow_rel, ?_⟩
  intro hy0
  constructor
  · intro hwpos
    rw [mkForecastRow_rel, hy0, abs_zero]
    simp [npDiv, hwpos]
  · intro hwz
    rw [mkForecastRow_rel, hy0, abs_zero, hwz]
    simp [npDiv]

/-- C1 (amended): fit performs no minimum-data check of its own. It
succeeds exactly when data preparation and the black-box optimizer succeed
— regardless of how the series length compares with two cycles of the
shortest enabled seasonal component — and every failure it raises is a
ModelTrainingException (line 218). -/
theorem C1_fit_outcome_characterization
    (coreFit : List DataRow → List (String × Dtype) → Except String FittedParams)
    (calcM : FittedParams → List DataRow → Option (List (String × ℚ)))
    (st : ModelState) (df : RawFrame) (targetCol : String) (now : Int) :
    ((fitModel coreFit calcM st df targetCol now).2 = .ok () ↔
      ∃ pr, prepare_data df = .ok pr ∧ ∃ p, coreFit pr.rows pr.extraCols = .ok p) ∧
    (∀ e, (fitModel coreFit calcM st df targetCol now).2 = .error e →
      e.kind = ErrKind.modelTraining) := by
  cases hpd : prepare_data df with
  | error e0 =>
    simp only [fitModel, hpd]
    constructor
    · constructor
      · intro h; exact absurd h (by simp)
      · rintro ⟨pr, hpr, _⟩; exact absurd hpr (by simp)
    · intro e he
      simp only [Except.error.injEq] at he
      rw [← he]
  | ok pr =>
    cases hcf : coreFit pr.rows pr.extraCols with
    | error m =>
      simp only [fitModel, hpd, hcf]
      constructor
      · constructor
        · intro h; exact absurd h (by simp)
        · rintro ⟨pr2, hpr2, p2, hp2⟩
          simp only [Except.ok.injEq] at hpr2
          rw [← hpr2] at hp2
          rw [hcf] at hp2
          exact absurd hp2 (by simp)
      · intro e he
        simp only [Except.error.injEq] at he
        rw [← he]
    | ok p =>
      cases hcm : calcM p pr.rows with
      | none =>
        simp only [fitModel, hpd, hcf, hcm]
        constructor
        · constructor
          · intro _; exact ⟨pr, rfl, p, hcf⟩
          · intro _; trivial
        · intro e he; exact absurd he (by simp)
      | some ms =>
        simp only [fitModel, hpd, hcf, hcm]
        constructor
        · constructor
          · intro _; exact ⟨pr, rfl, p, hcf⟩
          · intro _; trivial
        · intro e he; exact absurd he (by simp)

set_option maxRecDepth 8000 in
/-- C6: when the core fit succeeds but the in-sample training-metrics pass
fails (a metrics step that raises, modelled as the calcM black box
returning none), fit still returns normally — no exception propagates —
with a usable fitted model and, for a freshly constructed instance, empty
training metrics: the except branch of lines 294-295 only logs a warning
and the fit is not rolled back. -/
theorem C6_metrics_failure_nonfatal
    (coreFit : List DataRow → List (String × Dtype) → Except String FittedParams)
    (st : ModelState) (df : RawFrame) (targetCol : String) (now : Int)
    (pr : PreparedFrame) (p : FittedParams)
    (hpd : prepare_data df = .ok pr)
    (hcf : coreFit pr.rows pr.extraCols = .ok p)
    (hm0 : st.trainingMetrics = []) :
    (fitModel coreFit (fun _ _ => none) st df targetCol now).2 = .ok () ∧
    (fitModel coreFit (fun _ _ => none) st df targetCol now).1.trainingMetrics = [] ∧
    ∃ obj, (fitModel coreFit (fun _ _ => none) st df targetCol now).1.model = some obj ∧
      obj.fitted = some p := by
  refine ⟨?_, ?_, ?_⟩
  · simp only [fitModel, hpd, hcf]
  · simp only [fitModel, hpd, hcf]
    exact hm0
  · refine ⟨{ fitted := some p,
              histDates := pr.rows.map (fun r => r.ds),
              seasonalities := add_custom_seasonalities prophetBaseSeasonalities,
              regressors := add_regressors pr.extraCols,
              countryHolidays := some "US",
              intervalWidth := st.intervalWidth,
              uncertaintySamples := st.uncertaintySamples }, ?_, rfl⟩
    simp only [fitModel, hpd, hcf]

/-- C8 (amended): save_model on an unfitted instance raises Python's
builtin ValueError("No model to save") — not a PersistenceError, which
exists nowhere in the code — and an I/O failure during the dump is
re-raised as a plain builtin Exception; on success the configuration-
bearing model object, feature and target column identifiers, training
metrics and metadata are serialized in one joblib.dump call of a single
five-field bundle. -/
theorem C8_save_model_error_kinds (dump : SavedModelData → Except String Unit)
    (st : ModelState) :
    (st.model = none →
      save_model dump st =
        .error { kind := ErrKind.valueError, msg := "No model to save" }) ∧
    (∀ obj, st.model = some obj →
      (dump { model := st.model, feature_columns := st.featureColumns,
              target_column := st.targetColumn,
              training_metrics := st.trainingMetrics,
              metadata := st.metadata } = .ok () →
        save_model dump st = .ok ()) ∧
      (∀ m, dump { model := st.model, feature_columns := st.featureColumns,
                   target_column := st.targetColumn,
                   training_metrics := st.trainingMetrics,
                   metadata := st.metadata } = .error m →
        save_model dump st =
          .error { kind := ErrKind.genericError,
                   msg := "Failed to save model: " ++ m })) := by
  constructor
  · intro hm
    simp [save_model, hm]
  · intro obj hm
    constructor
    · intro hd
      rw [hm] at hd
      simp only [save_model, hm, hd]
    · intro m hd
      rw [hm] at hd
      simp only [save_model, hm, hd]

/-- C9 (amended): a column of the training frame is auto-registered as a
regressor exactly when its name is neither ds nor y and its dtype is one of
the four listed on line 118 — float64, int64, float32, int32; every other
column, numeric dtypes such as int16 included, is skipped without any
error. -/
theorem C9_regressor_discovery (cols : List (String × Dtype)) (name : String) :
    name ∈ add_regressors cols ↔
      ∃ d, (name, d) ∈ cols ∧ name ≠ "ds" ∧ name ≠ "y" ∧ isNumericListed d = true := by
  constructor
  · intro h
    simp only [add_regressors, List.mem_map] at h
    obtain ⟨c, hc, hcn⟩ := h
    rw [List.mem_filter] at hc
    obtain ⟨hc1, hc2⟩ := hc
    rw [List.mem_filter] at hc1
    obtain ⟨hc0, hc3⟩ := hc1
    have hc3' := of_decide_eq_true hc3
    refine ⟨c.2, ?_, ?_, ?_, hc2⟩
    · rw [← hcn]; exact hc0
    · rw [← hcn]; exact hc3'.1
    · rw [← hcn]; exact hc3'.2
  · rintro ⟨d, hmem, hds, hy, hnum⟩
    simp only [add_regressors, List.mem_map]
    refine ⟨(name, d), ?_, rfl⟩
    rw [List.mem_filter]
    refine ⟨?_, hnum⟩
    rw [List.mem_filter]
    exact ⟨hmem, decide_eq_true (by exact ⟨hds, hy⟩)⟩

/-- C10 (amended): cross_validate raises
PredictionException("Model has not been trained yet"), before any data
preparation, exactly when the model attribute is still None — that is, when
no fit call ever reached the Prophet construction on line 172 (fit never
called, or it failed during data preparation). On an instance whose fit
failed later — inside the optimizer — the model attribute holds an unfitted
Prophet object, so the guard does not fire and every failure, including the
one caused by cross-validating that unfitted object, is wrapped into
ModelTrainingException. -/
theorem C10_cross_validate_guards
    (coreCv : FittedParams → List DataRow → String → String → String →
      Except String (List (Int × ℚ)))
    (perf : List (Int × ℚ) → List (String × ℚ))
    (st : ModelState) (df : RawFrame) (horizon initial period : String) :
    (st.model = none →
      crossValidate coreCv perf st df horizon initial period =
        .error { kind := ErrKind.prediction, msg := "Model has not been trained yet" }) ∧
    (∀ obj, st.model = some obj → ∀ e,
      crossValidate coreCv perf st df horizon initial period = .error e →
      e.kind = ErrKind.modelTraining) := by
  constructor
  · intro hm
    simp [crossValidate, hm]
  · intro obj hm e he
    cases hpd : prepare_data df with
    | error e0 =>
      have hval : crossValidate coreCv perf st df horizon initial period =
          .error { kind := ErrKind.modelTraining,
                   msg := "Cross-validation failed: " ++ e0.msg } := by
        simp only [crossValidate, hm, hpd]
      rw [hval] at he
      simp only [Except.error.injEq] at he
      rw [← he]
    | ok pr =>
      cases hf : obj.fitted with
      | none =>
        have hval : crossValidate coreCv perf st df horizon initial period =
            .error { kind := ErrKind.modelTraining,
                     msg := "Cross-validation failed: Model has not been fit" } := by
          simp only [crossValidate, hm, hpd, hf]
        rw [hval] at he
        simp only [Except.error.injEq] at he
        rw [← he]
      | some p =>
        cases hcv : coreCv p pr.rows horizon initial period with
        | error m =>
          have hval : crossValidate coreCv perf st df horizon initial period =
              .error { kind := ErrKind.modelTraining,
                       msg := "Cross-validation failed: " ++ m } := by
            simp only [crossValidate, hm, hpd, hf, hcv]
          rw [hval] at he
          simp only [Except.error.injEq] at he
          rw [← he]
        | ok res =>
          have hval : crossValidate coreCv perf st df horizon initial period =
              .ok (res, perf res) := by
            simp only [crossValidate, hm, hpd, hf, hcv]
          rw [hval] at he
          exact absurd he (by simp)

/-- A three-row daily series (days 0, 1, 2), all values present: far fewer
points than two cycles of the shortest enabled seasonal component (weekly,
7 days). -/
def df3 : RawFrame :=
  { rows := [{ ds := some 0, y := some 10 }, { ds := some 1, y := some 11 },
             { ds := some 2, y := some 12 }],
    extraCols := [] }

/-- The prepared frame for df3: 10, 11, 12 are all inside their own clip
interval [9, 13], so preparation leaves them unchanged. -/
def pr3 : PreparedFrame :=
  { rows := [{ ds := 0, y := some 10 }, { ds := 1, y := some 11 },
             { ds := 2, y := some 12 }],
    extraCols := [] }

/-- A frame whose single timestamp cell is unparseable. -/
def dfBadTs : RawFrame :=
  { rows := [{ ds := none, y := some 1 }], extraCols := [] }

/-- A frame whose value column is entirely missing. -/
def dfAllMissing : RawFrame :=
  { rows := [{ ds := some 0, y := none }, { ds := some 1, y := none }],
    extraCols := [] }

/-- Five daily points with one outlier (100). Q1 = 2, Q3 = 4, IQR = 2, so
the clip interval is [-1, 7]. -/
def df5 : RawFrame :=
  { rows := [{ ds := some 0, y := some 1 }, { ds := some 1, y := some 2 },
             { ds := some 2, y := some 3 }, { ds := some 3, y := some 4 },
             { ds := some 4, y := some 100 }],
    extraCols := [] }

/-- The prepared frame for df5: the outlier 100 is capped to 7, the other
values and the record count are unchanged. -/
def out5 : PreparedFrame :=
  { rows := [{ ds := 0, y := some 1 }, { ds := 1, y := some 2 },
             { ds := 2, y := some 3 }, { ds := 3, y := some 4 },
             { ds := 4, y := some 7 }],
    extraCols := [] }

/-- A black-box optimizer run that fails, as the Prophet solver does on a
numerically degenerate problem. -/
def coreFitFail : List DataRow → List (String × Dtype) → Except String FittedParams :=
  fun _ _ => .error "Optimization terminated abnormally"

/-- The random stream that deviates every sampled trajectory by 0. -/
def noiseZero : ℕ → ℕ → ℚ := fun _ _ => 0

/-- The random stream that deviates every sampled trajectory by +1. -/
def noiseOne : ℕ → ℕ → ℚ := fun _ _ => 1

/-- A fitted Prophet object whose point forecast is constantly 1, with
uncertainty sampling disabled. -/
def objW5 : ProphetObj :=
  { fitted := some { point := fun _ _ => 1 }
    histDates := [0]
    seasonalities := add_custom_seasonalities prophetBaseSeasonalities
    regressors := []
    countryHolidays := some "US"
    intervalWidth := 1 / 2
    uncertaintySamples := 0 }

/-- An instance state holding objW5. -/
def stW5 : ModelState :=
  { initialState "prophet_forecasting" with model := some objW5 }

/-- The single forecast row predict produces from stW5 for one period. -/
def rowW5 : ForecastRow :=
  { ds := 1, yhat := 1, yhat_lower := 1, yhat_upper := 1, prediction_date := 0,
    model_name := "prophet_forecasting", confidence_width := 0,
    relative_uncertainty := FVal.fin 0 }

/-- A fitted Prophet object whose point forecast is constantly 0, with
uncertainty sampling disabled. -/
def objW7 : ProphetObj :=
  { fitted := some { point := fun _ _ => 0 }
    histDates := [0]
    seasonalities := add_custom_seasonalities prophetBaseSeasonalities
    regressors := []
    countryHolidays := some "US"
    intervalWidth := 1 / 2
    uncertaintySamples := 0 }

/-- An instance state holding objW7. -/
def stW7 : ModelState :=
  { initialState "prophet_forecasting" with model := some objW7 }

/-- The single forecast row predict produces from stW7 for one period: its
yhat is 0 and its relative_uncertainty is numpy's 0/0 NaN sentinel. -/
def rowW7 : ForecastRow :=
  { ds := 1, yhat := 0, yhat_lower := 0, yhat_upper := 0, prediction_date := 0,
    model_name := "prophet_forecasting", confidence_width := 0,
    relative_uncertainty := FVal.nan }

/-- A fitted Prophet object whose point forecast is constantly 0, drawing
two uncertainty samples at interval width 1/2. -/
def objC5 : ProphetObj :=
  { fitted := some { point := fun _ _ => 0 }
    histDates := [0]
    seasonalities := add_custom_seasonalities prophetBaseSeasonalities
    regressors := []
    countryHolidays := some "US"
    intervalWidth := 1 / 2
    uncertaintySamples := 2 }

/-- An instance state holding objC5. -/
def stC5 : ModelState :=
  { initialState "prophet_forecasting" with model := some objC5 }

/-- The forecast row predict produces from stC5 under the all-plus-one
random stream: both sampled trajectories sit at 0 + 1, so both percentile
bounds are 1 while yhat stays 0 — the row violates
yhat_lower ≤ yhat. -/
def rowC5 : ForecastRow :=
  { ds := 1, yhat := 0, yhat_lower := 1, yhat_upper := 1, prediction_date := 0,
    model_name := "prophet_forecasting", confidence_width := 0,
    relative_uncertainty := FVal.nan }

/-- A dump black box that always succeeds. -/
def dumpOk : SavedModelData → Except String Unit := fun _ => .ok ()

/-- A cross_validation black box that always succeeds with no folds. -/
def coreCvOk : FittedParams → List DataRow → String → String → String →
    Except String (List (Int × ℚ)) :=
  fun _ _ _ _ _ => .ok []

/-- A performance_metrics black box returning an empty table. -/
def perfEmpty : List (Int × ℚ) → List (String × ℚ) := fun _ => []

/-- The instance state left behind by a fit that failed inside the
optimizer: the model attribute holds a constructed but unfitted Prophet
object. -/
def failedFitState : ModelState :=
  (fitModel coreFitFail (fun _ _ => none) (initialState "prophet_forecasting")
    df3 "sales" 0).1

/-- C1 counterexample: the three-point daily series df3 holds fewer points
than two full cycles of the shortest enabled seasonal component (weekly:
2 x 7 days), yet fit returns success — the modelled Prophet solver only
requires two non-missing rows and the repository adds no seasonal-cycle
minimum of its own — contradicting the claim that such a fit always fails
with a TrainingError. -/
theorem C1_counterexample :
    (fitModel prophetCoreFit (fun _ _ => some []) (initialState "prophet_forecasting")
      df3 "sales" 0).2 = .ok () ∧
    (df3.rows.length : ℚ) < 2 * shortestSeasonalPeriod := by
  constructor
  · rfl
  · norm_num [df3, shortestSeasonalPeriod, add_custom_seasonalities,
      prophetBaseSeasonalities, min_def]

/-- C1 witness: a run whose optimizer fails is reported as a
ModelTrainingException. -/
theorem C1_witness :
    ({ kind := ErrKind.modelTraining,
       msg := "Prophet model training failed: Optimization terminated abnormally" } :
      PyError).kind = ErrKind.modelTraining :=
  (C1_fit_outcome_characterization coreFitFail (fun _ _ => none)
    (initialState "prophet_forecasting") df3 "sales" 0).2
    { kind := ErrKind.modelTraining,
      msg := "Prophet model training failed: Optimization terminated abnormally" }
    rfl

/-- C3 counterexample: a series whose value column is entirely missing is
not rejected — prepare_data returns it unchanged (values still missing)
instead of failing with any error, contradicting the claimed
DataValidationError. -/
theorem C3_counterexample :
    prepare_data dfAllMissing =
      .ok { rows := [{ ds := 0, y := none }, { ds := 1, y := none }],
            extraCols := [] } := rfl

/-- C3 witness: an unparseable timestamp makes prepare_data raise the
ModelTrainingException kind. -/
theorem C3_witness :
    ({ kind := ErrKind.modelTraining,
       msg := "Data preparation failed: Unknown datetime string format" } :
      PyError).kind = ErrKind.modelTraining :=
  (C3_prepare_failure_characterization dfBadTs).2
    { kind := ErrKind.modelTraining,
      msg := "Data preparation failed: Unknown datetime string format" }
    rfl

/-- C8 counterexample: save on an unfitted instance raises Python's builtin
ValueError, which is not the PersistenceError kind the claim names. -/
theorem C8_counterexample :
    save_model dumpOk (initialState "prophet_forecasting") =
      .error { kind := ErrKind.valueError, msg := "No model to save" } ∧
    ErrKind.valueError ≠ ErrKind.persistence :=
  ⟨rfl, by decide⟩

/-- C8 witness: with a model present and a dump that succeeds, save_model
returns normally. -/
theorem C8_witness :
    save_model dumpOk { initialState "prophet_forecasting" with model := some objW5 } =
      .ok () :=
  ((C8_save_model_error_kinds dumpOk
    { initialState "prophet_forecasting" with model := some objW5 }).2 objW5 rfl).1 rfl

/-- C9 counterexample: an int16 column is numeric in the spec's sense, yet
the line-118 membership test skips it, so it is not registered as a
regressor — the test is a fixed four-dtype list, not a numeric-dtype
test. -/
theorem C9_counterexample :
    numericDtypeSpec Dtype.int16 = true ∧
    "promo" ∉ add_regressors [("promo", Dtype.int16)] := by
  refine ⟨rfl, ?_⟩
  decide

/-- C10 counterexample: an instance whose only fit attempt failed inside
the optimizer has never been successfully fitted, yet cross_validate on it
raises ModelTrainingException (the line-318 guard does not fire, because
the failed fit already assigned the model attribute), not the claimed
PredictionException. -/
theorem C10_counterexample :
    (fitModel coreFitFail (fun _ _ => none) (initialState "prophet_forecasting")
      df3 "sales" 0).2 ≠ .ok () ∧
    crossValidate coreCvOk perfEmpty failedFitState df3 "30 days" "365 days" "30 days" =
      .error { kind := ErrKind.modelTraining,
               msg := "Cross-validation failed: Model has not been fit" } ∧
    ErrKind.modelTraining ≠ ErrKind.prediction := by
  refine ⟨?_, rfl, by decide⟩
  intro hcon
  exact Except.noConfusion hcon

/-- C10 witness: on an instance with no model attribute at all,
cross_validate raises PredictionException before touching the data — here
even on a frame whose preparation would itself fail. -/
theorem C10_witness :
    crossValidate coreCvOk perfEmpty (initialState "prophet_forecasting") dfBadTs
      "30 days" "365 days" "30 days" =
      .error { kind := ErrKind.prediction, msg := "Model has not been trained yet" } :=
  (C10_cross_validate_guards coreCvOk perfEmpty (initialState "prophet_forecasting")
    dfBadTs "30 days" "365 days" "30 days").1 rfl

/-- C2 counterexample: two predict calls with identical model state, grid
parameters and random stream, made at wall-clock instants 0 and 1, return
different ForecastRow sequences — the prediction_date column differs — so
the outputs are not bit-identical. -/
theorem C2_counterexample :
    predictModel noiseZero 0 stW5 1 1 false none ≠
      predictModel noiseZero 1 stW5 1 1 false none := by
  intro hcon
  have h2 := congrArg (Except.map (List.map (fun r => r.prediction_date))) hcon
  have hv1 : (predictModel noiseZero 0 stW5 1 1 false none).map
      (List.map (fun r => r.prediction_date)) = .ok [(0 : Int)] := rfl
  have hv2 : (predictModel noiseZero 1 stW5 1 1 false none).map
      (List.map (fun r => r.prediction_date)) = .ok [(1 : Int)] := rfl
  rw [hv1, hv2] at h2
  exact absurd h2 (by simp)

theorem predict_stW5_eval :
    predictModel noiseZero 0 stW5 1 1 false none = .ok [rowW5] := by
  norm_num [predictModel, stW5, objW5, initialState, makeGrid, mergeRegressors,
    buildRows, mkForecastRow, rowW5, noiseZero, quantileLinear,
    List.insertionSort, List.range_zero, List.getLast?, npDiv, abs_one]

/-- C5 witness: the amended interval-ordering theorem applied to a concrete
fitted state and its concrete forecast row. -/
theorem C5_witness :
    rowW5.yhat_lower ≤ rowW5.yhat_upper ∧
    rowW5.confidence_width = rowW5.yhat_upper - rowW5.yhat_lower ∧
    0 ≤ rowW5.confidence_width :=
  C5_interval_ordering noiseZero 0 stW5 1 1 false none objW5
    { point := fun _ _ => 1 } [rowW5] rfl rfl
    (by norm_num [objW5]) (by norm_num [objW5]) predict_stW5_eval rowW5
    (by simp)

theorem predict_stW7_eval :
    predictModel noiseZero 0 stW7 1 1 false none = .ok [rowW7] := by
  norm_num [predictModel, stW7, objW7, initialState, makeGrid, mergeRegressors,
    buildRows, mkForecastRow, rowW7, noiseZero, quantileLinear,
    List.insertionSort, List.range_zero, List.getLast?, npDiv, abs_zero]

/-- C7 witness: the relative-uncertainty theorem applied to a concrete
fitted state whose forecast row has yhat = 0 and width 0, carrying numpy's
0/0 NaN sentinel. -/
theorem C7_witness :
    rowW7.relative_uncertainty = npDiv rowW7.confidence_width |rowW7.yhat| ∧
    (rowW7.yhat = 0 →
      (0 < rowW7.confidence_width → rowW7.relative_uncertainty = FVal.inf) ∧
      (rowW7.confidence_width = 0 → rowW7.relative_uncertainty = FVal.nan)) :=
  C7_relative_uncertainty_guarded noiseZero 0 stW7 1 1 false none objW7
    { point := fun _ _ => 0 } [rowW7] rfl rfl predict_stW7_eval rowW7
    (by simp)

/-- C5 counterexample: with the fitted state stC5 and the random stream
that pushes both sampled trajectories to +1, the produced forecast row has
yhat_lower = 1 above yhat = 0 — the claimed invariant
yhat_lower ≤ yhat ≤ yhat_upper fails. -/
theorem C5_counterexample :
    predictModel noiseOne 0 stC5 1 1 false none = .ok [rowC5] ∧
    ¬ (rowC5.yhat_lower ≤ rowC5.yhat) := by
  constructor
  · norm_num [predictModel, stC5, objC5, initialState, makeGrid, mergeRegressors,
      buildRows, mkForecastRow, rowC5, noiseOne, quantileLinear, interpSorted,
      qfrac, Rat.floor, List.insertionSort, List.orderedInsert, List.range_succ,
      List.range_zero, List.getLast?, npDiv, dropNone, abs_zero]
  · norm_num [rowC5]

theorem intToNatThree : Int.toNat 3 = 3 := rfl

set_option maxHeartbeats 2000000 in
theorem prepare_df5_eval : prepare_data df5 = .ok out5 := by
  norm_num [prepare_data, df5, out5, parseRows, sortByDs, List.insertionSort,
    List.orderedInsert, ffill, bfill, ffillAux, clipBounds, clipOpt, quantileLinear,
    interpSorted, qfrac, Rat.floor, dropNone, min_def, max_def, intToNatThree]

set_option maxHeartbeats 2000000 in
theorem bounds_df5_eval : prepBoundsOfRaw df5 = some (-1, 7) := by
  norm_num [prepBoundsOfRaw, df5, parseRows, filledColumn, sortByDs,
    List.insertionSort, List.orderedInsert, ffill, bfill, ffillAux, clipBounds,
    quantileLinear, interpSorted, qfrac, Rat.floor, dropNone, intToNatThree]

/-- C4 witness: the capping theorem applied to the concrete five-point
frame with one outlier; the outlier row ends up at the upper clip bound 7
and the record count is preserved. -/
theorem C4_witness :
    out5.rows.length = df5.rows.length ∧
    ∃ v, ({ ds := 4, y := some 7 } : DataRow).y = some v ∧ (-1 : ℚ) ≤ v ∧ v ≤ 7 := by
  have h := C4_outlier_capping df5 out5 (-1) 7 prepare_df5_eval bounds_df5_eval
  exact ⟨h.1, h.2 { ds := 4, y := some 7 } (by simp [out5])⟩

set_option maxHeartbeats 2000000 in
theorem prepare_df3_eval : prepare_data df3 = .ok pr3 := by
  norm_num [prepare_data, df3, pr3, parseRows, sortByDs, List.insertionSort,
    List.orderedInsert, ffill, bfill, ffillAux, clipBounds, clipOpt, quantileLinear,
    interpSorted, qfrac, Rat.floor, dropNone, min_def, max_def, intToNatThree]

/-- C6 witness: the non-fatal-metrics theorem applied to a fresh instance,
the concrete frame df3, the modelled Prophet solver and a metrics pass that
fails. -/
theorem C6_witness :
    (fitModel prophetCoreFit (fun _ _ => none) (initialState "prophet_forecasting")
      df3 "sales" 0).2 = .ok () ∧
    (fitModel prophetCoreFit (fun _ _ => none) (initialState "prophet_forecasting")
      df3 "sales" 0).1.trainingMetrics = [] ∧
    ∃ obj, (fitModel prophetCoreFit (fun _ _ => none) (initialState "prophet_forecasting")
      df3 "sales" 0).1.model = some obj ∧ obj.fitted = some { point := fun _ _ => 0 } :=
  C6_metrics_failure_nonfatal prophetCoreFit (initialState "prophet_forecasting")
    df3 "sales" 0 pr3 { point := fun _ _ => 0 } prepare_df3_eval rfl rfl
